import Mathlib

/-!
Shallow embedding of `src/gpu/compute.rs` from the screen-13 rendering
engine: the `Compute` kernel type, its shared constructor `Compute::new`,
the five factory functions, `reset`, and the accessors, together with a
model of the descriptor-pool primitives they call.

Modelling conventions:
* Rust panics (`unwrap` on allocation failure, `Vec` indexing out of
  range) are modelled by `Option`: `none` is an unrecoverable abort.
* Descriptor-set handles are modelled as natural-number identifiers
  handed out by the pool; the pool hands out a fresh identifier per
  allocated set.
* The `#[cfg(debug_assertions)] name: &str` parameter is a debug-only
  label with no effect on behaviour; it is omitted.
-/

set_option autoImplicit false

namespace Screen13

/-- Modelled from the spec: the shared, reference-counted device handle
(`crate::gpu::driver::Driver`, not under `src/`); only its identity
matters to this component, which clones and stores it. -/
structure Driver where
  id : Nat
deriving DecidableEq

/-- `gfx_hal::pso::ShaderStageFlags`: a bit-flag set of shader stages.
Only the `COMPUTE` flag is used by this component. -/
structure ShaderStageFlags where
  bits : Nat
deriving DecidableEq

/-- The `COMPUTE` shader-stage flag. -/
def ShaderStageFlags.COMPUTE : ShaderStageFlags := ⟨0x20⟩

/-- `std::ops::Range<u32>`: a half-open byte range `start..stop`
(`stop` stands for Rust's `end`, a Lean keyword). -/
structure RangeU32 where
  start : Nat
  stop : Nat
deriving DecidableEq

/-- `gfx_hal::pso::BufferDescriptorType`. -/
inductive BufferDescriptorType where
  | Uniform
  | Storage (read_only : Bool)
deriving DecidableEq

/-- `gfx_hal::pso::BufferDescriptorFormat`. -/
inductive BufferDescriptorFormat where
  | Structured (dynamic_offset : Bool)
  | Texel
deriving DecidableEq

/-- `gfx_hal::pso::ImageDescriptorType`. -/
inductive ImageDescriptorType where
  | Storage (read_only : Bool)
  | Sampled (with_sampler : Bool)
deriving DecidableEq

/-- `gfx_hal::pso::DescriptorType`: the resource type of a binding or a
pool range. -/
inductive DescriptorType where
  | Sampler
  | Image (ty : ImageDescriptorType)
  | Buffer (ty : BufferDescriptorType) (format : BufferDescriptorFormat)
  | InputAttachment
deriving DecidableEq

/-- `gfx_hal::pso::DescriptorRangeDesc`: one resource-type capacity range
declared when creating a descriptor pool. -/
structure DescriptorRangeDesc where
  ty : DescriptorType
  count : Nat
deriving DecidableEq

/-- `gfx_hal::pso::DescriptorSetLayoutBinding`: one binding slot of a
descriptor-set layout. -/
structure DescriptorSetLayoutBinding where
  binding : Nat
  ty : DescriptorType
  count : Nat
  stage_flags : ShaderStageFlags
  immutable_samplers : Bool
deriving DecidableEq

/-- Modelled from the spec: the driver-module helper
`descriptor_range_desc(count, ty)` (in `crate::gpu::driver`, not under
`src/`) builds a pool capacity range from a count and a resource type. -/
def descriptor_range_desc (count : Nat) (ty : DescriptorType) : DescriptorRangeDesc :=
  ⟨ty, count⟩

/-- Modelled from the spec: the driver-module helper
`descriptor_set_layout_binding(binding, stage, ty)` (in
`crate::gpu::driver`, not under `src/`) builds a single-descriptor layout
binding with no immutable samplers. -/
def descriptor_set_layout_binding (binding : Nat) (stage_flags : ShaderStageFlags)
    (ty : DescriptorType) : DescriptorSetLayoutBinding :=
  ⟨binding, ty, 1, stage_flags, false⟩

/-- Modelled from the spec: a compiled shader module
(`crate::gpu::driver::ShaderModule`, not under `src/`): owns the device
handle and the word-aligned binary instruction stream it was built
from. -/
structure ShaderModule where
  driver : Driver
  spirv : List Nat
deriving DecidableEq

/-- `ShaderModule::new(driver, spirv)`. -/
def ShaderModule.new (driver : Driver) (spirv : List Nat) : ShaderModule :=
  ⟨driver, spirv⟩

/-- `ShaderModule::entry_point`: the dispatchable entry point of the
module, determined by its binary. -/
def ShaderModule.entry_point (s : ShaderModule) : List Nat :=
  s.spirv

/-- Modelled from the spec: a descriptor-set layout
(`crate::gpu::driver::DescriptorSetLayout`, not under `src/`): the
immutable per-binding schema. -/
structure DescriptorSetLayout where
  driver : Driver
  bindings : List DescriptorSetLayoutBinding
deriving DecidableEq

/-- `DescriptorSetLayout::new(driver, bindings)`. -/
def DescriptorSetLayout.new (driver : Driver) (bindings : List DescriptorSetLayoutBinding) :
    DescriptorSetLayout :=
  ⟨driver, bindings⟩

/-- Modelled from the spec: a compiled compute pipeline
(`crate::gpu::driver::ComputePipeline`, not under `src/`): built from a
shader entry point, the set layouts, and the push-constant ranges. -/
structure ComputePipeline where
  driver : Driver
  entry_point : List Nat
  set_layouts : List DescriptorSetLayout
  push_consts : List (ShaderStageFlags × RangeU32)
deriving DecidableEq

/-- `ComputePipeline::new(driver, entry_point, set_layouts, push_consts)`. -/
def ComputePipeline.new (driver : Driver) (entry_point : List Nat)
    (set_layouts : List DescriptorSetLayout)
    (push_consts : List (ShaderStageFlags × RangeU32)) : ComputePipeline :=
  ⟨driver, entry_point, set_layouts, push_consts⟩

/-- Modelled from the spec: a pre-built sampler resource
(`crate::gpu::driver::Sampler`, not under `src/`); only its identity
matters here (every current kernel variant passes an empty sampler
sequence). -/
structure Sampler where
  id : Nat
deriving DecidableEq

/-- Modelled from the spec: the descriptor pool
(`crate::gpu::driver::DescriptorPool`, not under `src/`): a bounded
allocator created with a maximum set count and declared per-type
capacity ranges.  `decl_ranges` and `max_sets` are the immutable
configuration; `remaining`, `sets_allocated` and `next_id` are the
allocation state.  Allocating a set consumes one declared slot per
descriptor required by the layout and yields a fresh handle. -/
structure DescriptorPool where
  driver : Driver
  max_sets : Nat
  decl_ranges : List DescriptorRangeDesc
  remaining : List DescriptorRangeDesc
  sets_allocated : Nat
  next_id : Nat
deriving DecidableEq

/-- `DescriptorPool::new(driver, max_sets, ranges)`: a fresh pool with
full remaining capacity and nothing allocated. -/
def DescriptorPool.new (driver : Driver) (max_sets : Nat)
    (ranges : List DescriptorRangeDesc) : DescriptorPool :=
  ⟨driver, max_sets, ranges, ranges, 0, 0⟩

/-- Consume one descriptor of type `ty` from the remaining capacity
ranges; fails when no range of that type has capacity left. -/
def consumeOne : List DescriptorRangeDesc → DescriptorType → Option (List DescriptorRangeDesc)
  | [], _ => none
  | r :: rest, ty =>
    if r.ty = ty ∧ 0 < r.count then
      some ({ r with count := r.count - 1 } :: rest)
    else
      (consumeOne rest ty).map (fun rs => r :: rs)

/-- Consume `n` descriptors of type `ty`. -/
def consumeCount : List DescriptorRangeDesc → DescriptorType → Nat → Option (List DescriptorRangeDesc)
  | ranges, _, 0 => some ranges
  | ranges, ty, n + 1 => (consumeOne ranges ty).bind (fun rs => consumeCount rs ty n)

/-- Consume the descriptors demanded by every binding of a layout. -/
def consumeBindings : List DescriptorRangeDesc → List DescriptorSetLayoutBinding →
    Option (List DescriptorRangeDesc)
  | ranges, [] => some ranges
  | ranges, b :: bs => (consumeCount ranges b.ty b.count).bind (fun rs => consumeBindings rs bs)

/-- `DescriptorPool::allocate_set(layout)`: carve one descriptor set out
of the pool against `layout`.  Fails (Vulkan `OUT_OF_POOL_MEMORY`) when
the pool's set slots or any required range capacity is exhausted;
otherwise returns the updated pool and a fresh handle. -/
def DescriptorPool.allocate_set (pool : DescriptorPool) (layout : DescriptorSetLayout) :
    Option (DescriptorPool × Nat) :=
  if pool.sets_allocated < pool.max_sets then
    (consumeBindings pool.remaining layout.bindings).map (fun rs =>
      ({ pool with
          remaining := rs
          sets_allocated := pool.sets_allocated + 1
          next_id := pool.next_id + 1 },
        pool.next_id))
  else
    none

/-- `DescriptorPool::allocate(layouts, &mut sets)` for `n` copies of one
layout: allocate `n` sets in order, collecting their handles; fails as a
whole when any single allocation fails. -/
def DescriptorPool.allocate : DescriptorPool → DescriptorSetLayout → Nat →
    Option (DescriptorPool × List Nat)
  | pool, _, 0 => some (pool, [])
  | pool, layout, n + 1 =>
    (pool.allocate_set layout).bind (fun pr =>
      (DescriptorPool.allocate pr.1 layout n).map (fun qr => (qr.1, pr.2 :: qr.2)))

/-- `DescriptorPool::reset`: invalidate every set allocated from the
pool, restoring the full declared capacity.  The pool object itself (its
configuration) is unchanged. -/
def DescriptorPool.reset (pool : DescriptorPool) : DescriptorPool :=
  { pool with remaining := pool.decl_ranges, sets_allocated := 0 }

/-- The `Compute` struct of `src/gpu/compute.rs`: a compute kernel owning
its descriptor pool, the allocated descriptor-set handles, the fixed set
capacity, the pipeline, the set layout, the samplers and the shader
module. -/
structure Compute where
  desc_pool : DescriptorPool
  desc_sets : List Nat
  max_desc_sets : Nat
  pipeline : ComputePipeline
  set_layout : DescriptorSetLayout
  samplers : List Sampler
  shader : ShaderModule
deriving DecidableEq

/-- `Compute::new`: the shared constructor.  Creates the shader module,
the set layout, the pipeline and the descriptor pool, then eagerly
allocates `max_desc_sets` sets from the pool.  The `.unwrap()` on the
allocation is modelled by `Option`: `none` is the construction abort. -/
def Compute.new (driver : Driver) (spirv : List Nat)
    (push_consts : List (ShaderStageFlags × RangeU32)) (max_desc_sets : Nat)
    (desc_ranges : List DescriptorRangeDesc)
    (bindings : List DescriptorSetLayoutBinding)
    (samplers : List Sampler) : Option Compute :=
  let shader := ShaderModule.new driver spirv
  let set_layout := DescriptorSetLayout.new driver bindings
  let pipeline := ComputePipeline.new driver (ShaderModule.entry_point shader)
    [set_layout] push_consts
  let desc_pool := DescriptorPool.new driver max_desc_sets desc_ranges
  (desc_pool.allocate set_layout max_desc_sets).map (fun pr =>
    { desc_pool := pr.1
      desc_sets := pr.2
      max_desc_sets := max_desc_sets
      pipeline := pipeline
      set_layout := set_layout
      samplers := samplers
      shader := shader })

/-- `BufferDescriptorType::Storage { read_only: true }` (local const
`READ_ONLY` of `calc_vertex_attrs`). -/
def READ_ONLY : BufferDescriptorType := .Storage true

/-- `BufferDescriptorType::Storage { read_only: false }` (local const
`READ_WRITE` of `calc_vertex_attrs`). -/
def READ_WRITE : BufferDescriptorType := .Storage false

/-- `BufferDescriptorFormat::Structured { dynamic_offset: false }` (local
const `STRUCTURED` of `calc_vertex_attrs`). -/
def STRUCTURED : BufferDescriptorFormat := .Structured false

/-- The push-constant ranges `calc_vertex_attrs` passes:
`[(COMPUTE, 0..8)]`. -/
def calcVertexAttrsPushConsts : List (ShaderStageFlags × RangeU32) :=
  [(ShaderStageFlags.COMPUTE, ⟨0, 8⟩)]

/-- The descriptor-range capacities `calc_vertex_attrs` passes:
`3 * max_desc_sets` read-only structured buffers and `max_desc_sets`
read-write structured buffers. -/
def calcVertexAttrsRanges (max_desc_sets : Nat) : List DescriptorRangeDesc :=
  [descriptor_range_desc (3 * max_desc_sets) (.Buffer READ_ONLY STRUCTURED),
    descriptor_range_desc max_desc_sets (.Buffer READ_WRITE STRUCTURED)]

/-- The layout bindings `calc_vertex_attrs` passes: `0: idx_buf` (RO),
`1: src_buf` (RO), `2: dst_buf` (RW), `3: write_mask` (RO), all
structured storage buffers on the compute stage. -/
def calcVertexAttrsBindings : List DescriptorSetLayoutBinding :=
  [descriptor_set_layout_binding 0 ShaderStageFlags.COMPUTE (.Buffer READ_ONLY STRUCTURED),
    descriptor_set_layout_binding 1 ShaderStageFlags.COMPUTE (.Buffer READ_ONLY STRUCTURED),
    descriptor_set_layout_binding 2 ShaderStageFlags.COMPUTE (.Buffer READ_WRITE STRUCTURED),
    descriptor_set_layout_binding 3 ShaderStageFlags.COMPUTE (.Buffer READ_ONLY STRUCTURED)]

/-- `Compute::calc_vertex_attrs`: the shared helper of the four
vertex-attribute factories; fixes the push constants, ranges and
bindings and varies only the shader binary. -/
def Compute.calc_vertex_attrs (driver : Driver) (spirv : List Nat) (max_desc_sets : Nat) :
    Option Compute :=
  Compute.new driver spirv calcVertexAttrsPushConsts max_desc_sets
    (calcVertexAttrsRanges max_desc_sets) calcVertexAttrsBindings []

namespace spirv.compute

/-- Modelled from the spec: the precompiled `calc_vertex_attrs_u16`
shader binary (`super::spirv`, not under `src/`); the five binaries are
distinct fixed word streams. -/
def CALC_VERTEX_ATTRS_U16_COMP : List Nat := [16]

/-- Modelled from the spec: the precompiled `calc_vertex_attrs_u16_skin`
shader binary (not under `src/`). -/
def CALC_VERTEX_ATTRS_U16_SKIN_COMP : List Nat := [17]

/-- Modelled from the spec: the precompiled `calc_vertex_attrs_u32`
shader binary (not under `src/`). -/
def CALC_VERTEX_ATTRS_U32_COMP : List Nat := [32]

/-- Modelled from the spec: the precompiled `calc_vertex_attrs_u32_skin`
shader binary (not under `src/`). -/
def CALC_VERTEX_ATTRS_U32_SKIN_COMP : List Nat := [33]

/-- Modelled from the spec: the precompiled `decode_rgb_rgba` shader
binary (not under `src/`). -/
def DECODE_RGB_RGBA_COMP : List Nat := [64]

end spirv.compute

/-- `Compute::calc_vertex_attrs_u16`. -/
def Compute.calc_vertex_attrs_u16 (driver : Driver) (max_desc_sets : Nat) : Option Compute :=
  Compute.calc_vertex_attrs driver spirv.compute.CALC_VERTEX_ATTRS_U16_COMP max_desc_sets

/-- `Compute::calc_vertex_attrs_u16_skin`. -/
def Compute.calc_vertex_attrs_u16_skin (driver : Driver) (max_desc_sets : Nat) : Option Compute :=
  Compute.calc_vertex_attrs driver spirv.compute.CALC_VERTEX_ATTRS_U16_SKIN_COMP max_desc_sets

/-- `Compute::calc_vertex_attrs_u32`. -/
def Compute.calc_vertex_attrs_u32 (driver : Driver) (max_desc_sets : Nat) : Option Compute :=
  Compute.calc_vertex_attrs driver spirv.compute.CALC_VERTEX_ATTRS_U32_COMP max_desc_sets

/-- `Compute::calc_vertex_attrs_u32_skin`. -/
def Compute.calc_vertex_attrs_u32_skin (driver : Driver) (max_desc_sets : Nat) : Option Compute :=
  Compute.calc_vertex_attrs driver spirv.compute.CALC_VERTEX_ATTRS_U32_SKIN_COMP max_desc_sets

/-- The push-constant ranges `decode_rgb_rgba` passes:
`[(COMPUTE, 0..4)]`. -/
def decodePushConsts : List (ShaderStageFlags × RangeU32) :=
  [(ShaderStageFlags.COMPUTE, ⟨0, 4⟩)]

/-- The descriptor-range capacities `decode_rgb_rgba` passes: one
read-only structured buffer and one read-write storage image — the
counts are the literal `1` in the source, independent of
`max_desc_sets`. -/
def decodeRanges : List DescriptorRangeDesc :=
  [descriptor_range_desc 1 (.Buffer (.Storage true) (.Structured false)),
    descriptor_range_desc 1 (.Image (.Storage false))]

/-- The layout bindings `decode_rgb_rgba` passes: `0`: read-only
structured storage buffer, `1`: read-write storage image, both on the
compute stage. -/
def decodeBindings : List DescriptorSetLayoutBinding :=
  [descriptor_set_layout_binding 0 ShaderStageFlags.COMPUTE
      (.Buffer (.Storage true) (.Structured false)),
    descriptor_set_layout_binding 1 ShaderStageFlags.COMPUTE (.Image (.Storage false))]

/-- `Compute::decode_rgb_rgba`. -/
def Compute.decode_rgb_rgba (driver : Driver) (max_desc_sets : Nat) : Option Compute :=
  Compute.new driver spirv.compute.DECODE_RGB_RGBA_COMP decodePushConsts max_desc_sets
    decodeRanges decodeBindings []

/-- The reallocation loop of `Compute::reset`: for each stored handle,
allocate a new set from the pool (the `.unwrap()` is modelled by
`Option`) and overwrite the slot in place. -/
def resetAlloc : DescriptorPool → DescriptorSetLayout → List Nat →
    Option (DescriptorPool × List Nat)
  | pool, _, [] => some (pool, [])
  | pool, layout, _ :: rest =>
    (pool.allocate_set layout).bind (fun pr =>
      (resetAlloc pr.1 layout rest).map (fun qr => (qr.1, pr.2 :: qr.2)))

/-- `Compute::reset`: reset the descriptor pool, then re-allocate one set
per stored handle, overwriting the sequence index-for-index.  `none`
models the abort when a reallocation fails. -/
def Compute.reset (c : Compute) : Option Compute :=
  (resetAlloc c.desc_pool.reset c.set_layout c.desc_sets).map (fun pr =>
    { c with desc_pool := pr.1, desc_sets := pr.2 })

/-- `Compute::desc_set(idx)`: the stored handle at `idx`; the `Vec`
index panic on an out-of-range `idx` is modelled by `none`. -/
def Compute.desc_set (c : Compute) (idx : Nat) : Option Nat :=
  c.desc_sets.get? idx

/-! ## Helper lemmas about the descriptor pool and the constructor -/

/-- A successful single-set allocation: the handle is the pool's current
counter, the counter and the allocated-set count advance by one, the
remaining capacity is the consumed capacity, and the pool's immutable
configuration is untouched. -/
theorem DescriptorPool.allocate_set_spec {pool p' : DescriptorPool}
    {layout : DescriptorSetLayout} {id : Nat}
    (h : pool.allocate_set layout = some (p', id)) :
    id = pool.next_id ∧ p'.next_id = pool.next_id + 1 ∧
      p'.driver = pool.driver ∧ p'.max_sets = pool.max_sets ∧
      p'.decl_ranges = pool.decl_ranges ∧
      p'.sets_allocated = pool.sets_allocated + 1 ∧
      consumeBindings pool.remaining layout.bindings = some p'.remaining ∧
      pool.sets_allocated < pool.max_sets := by
  unfold DescriptorPool.allocate_set at h
  split at h
  · cases hc : consumeBindings pool.remaining layout.bindings with
    | none => rw [hc] at h; simp at h
    | some rs =>
      rw [hc] at h
      simp only [Option.map_some'] at h
      injection h with h2
      injection h2 with hp hid
      subst hp
      subst hid
      exact ⟨rfl, rfl, rfl, rfl, rfl, rfl, rfl, by assumption⟩
  · exact absurd h (by simp)

/-- A successful bulk allocation of `n` sets: exactly `n` handles come
back, the `i`-th handle is `next_id + i`, and the pool's immutable
configuration is untouched. -/
theorem DescriptorPool.allocate_spec :
    ∀ (n : Nat) (pool p' : DescriptorPool) (layout : DescriptorSetLayout) (sets : List Nat),
      pool.allocate layout n = some (p', sets) →
      sets.length = n ∧ (∀ i, i < n → sets.get? i = some (pool.next_id + i)) ∧
        p'.driver = pool.driver ∧ p'.max_sets = pool.max_sets ∧
        p'.decl_ranges = pool.decl_ranges
  | 0, pool, p', layout, sets, h => by
    unfold DescriptorPool.allocate at h
    injection h with h2
    injection h2 with hp hs
    subst hp
    subst hs
    exact ⟨rfl, by intro i hi; omega, rfl, rfl, rfl⟩
  | n + 1, pool, p', layout, sets, h => by
    unfold DescriptorPool.allocate at h
    cases h1 : pool.allocate_set layout with
    | none => rw [h1] at h; simp at h
    | some pr =>
      rw [h1] at h
      simp only [Option.some_bind] at h
      cases h2 : DescriptorPool.allocate pr.1 layout n with
      | none => rw [h2] at h; simp at h
      | some qr =>
        rw [h2] at h
        simp only [Option.map_some'] at h
        injection h with h2
        injection h2 with hp hs
        subst hp
        subst hs
        obtain ⟨hid, hnext, _, hmax1, hdecl1, _, _, _⟩ :=
          DescriptorPool.allocate_set_spec h1
        obtain ⟨hlen, hget, hdrv2, hmax2, hdecl2⟩ :=
          DescriptorPool.allocate_spec n pr.1 qr.1 layout qr.2 h2
        refine ⟨by simp [hlen], ?_, ?_, by rw [hmax2, hmax1], by rw [hdecl2, hdecl1]⟩
        · intro i hi
          cases i with
          | zero => simp [hid]
          | succ j =>
            have hj : j < n := by omega
            have := hget j hj
            simp only [List.get?_cons_succ]
            rw [this, hnext]
            congr 1
            omega
        · rw [hdrv2]
          exact (DescriptorPool.allocate_set_spec h1).2.2.1

/-- What a successful run of the shared constructor produces: every
field is determined by the inputs, exactly `max_desc_sets` handles are
stored, and the `i`-th handle is `i`. -/
theorem Compute.new_spec {driver : Driver} {spirv : List Nat}
    {push_consts : List (ShaderStageFlags × RangeU32)} {max_desc_sets : Nat}
    {desc_ranges : List DescriptorRangeDesc}
    {bindings : List DescriptorSetLayoutBinding} {samplers : List Sampler} {c : Compute}
    (h : Compute.new driver spirv push_consts max_desc_sets desc_ranges bindings samplers =
      some c) :
    c.max_desc_sets = max_desc_sets ∧
      c.desc_sets.length = max_desc_sets ∧
      (∀ i, i < max_desc_sets → c.desc_sets.get? i = some i) ∧
      c.set_layout = ⟨driver, bindings⟩ ∧
      c.pipeline = ⟨driver, spirv, [⟨driver, bindings⟩], push_consts⟩ ∧
      c.shader = ⟨driver, spirv⟩ ∧
      c.samplers = samplers ∧
      c.desc_pool.driver = driver ∧
      c.desc_pool.max_sets = max_desc_sets ∧
      c.desc_pool.decl_ranges = desc_ranges := by
  unfold Compute.new at h
  dsimp only at h
  cases ha : DescriptorPool.allocate (DescriptorPool.new driver max_desc_sets desc_ranges)
      (DescriptorSetLayout.new driver bindings) max_desc_sets with
  | none => rw [ha] at h; simp at h
  | some pr =>
    rw [ha] at h
    simp only [Option.map_some'] at h
    injection h with h2
    subst h2
    obtain ⟨hlen, hget, hdrv, hmax, hdecl⟩ :=
      DescriptorPool.allocate_spec max_desc_sets _ pr.1 _ pr.2 ha
    exact ⟨rfl, hlen, fun i hi => by simpa [DescriptorPool.new] using hget i hi, rfl, rfl, rfl, rfl, hdrv, hmax, hdecl⟩

/-- A successful run of the reallocation loop of `reset`: one new set
per stored handle, in order, with fresh handles from the pool's counter;
the pool's immutable configuration is untouched. -/
theorem resetAlloc_spec :
    ∀ (l : List Nat) (pool p' : DescriptorPool) (layout : DescriptorSetLayout)
      (sets : List Nat), resetAlloc pool layout l = some (p', sets) →
      sets.length = l.length ∧ (∀ i, i < l.length → sets.get? i = some (pool.next_id + i)) ∧
        p'.driver = pool.driver ∧ p'.max_sets = pool.max_sets ∧
        p'.decl_ranges = pool.decl_ranges
  | [], pool, p', layout, sets, h => by
    unfold resetAlloc at h
    injection h with h2
    injection h2 with hp hs
    subst hp
    subst hs
    exact ⟨rfl, by intro i hi; simp only [List.length_nil] at hi; omega, rfl, rfl, rfl⟩
  | a :: rest, pool, p', layout, sets, h => by
    unfold resetAlloc at h
    cases h1 : pool.allocate_set layout with
    | none => rw [h1] at h; simp at h
    | some pr =>
      rw [h1] at h
      simp only [Option.some_bind] at h
      cases h2 : resetAlloc pr.1 layout rest with
      | none => rw [h2] at h; simp at h
      | some qr =>
        rw [h2] at h
        simp only [Option.map_some'] at h
        injection h with h3
        injection h3 with hp hs
        subst hp
        subst hs
        obtain ⟨hid, hnext, hdrv1, hmax1, hdecl1, _, _, _⟩ :=
          DescriptorPool.allocate_set_spec h1
        obtain ⟨hlen, hget, hdrv2, hmax2, hdecl2⟩ :=
          resetAlloc_spec rest pr.1 qr.1 layout qr.2 h2
        refine ⟨by simp [hlen], ?_, by rw [hdrv2, hdrv1], by rw [hmax2, hmax1],
          by rw [hdecl2, hdecl1]⟩
        intro i hi
        cases i with
        | zero => simp [hid]
        | succ j =>
          have hj : j < rest.length := by simpa using hi
          have := hget j hj
          simp only [List.get?_cons_succ]
          rw [this, hnext]
          congr 1
          omega

/-- What a successful `reset` produces: the pipeline, layout, shader,
samplers, `max_desc_sets` and the pool's configuration are untouched;
the handle sequence keeps its length, slot for slot. -/
theorem Compute.reset_spec {c c' : Compute} (h : c.reset = some c') :
    c'.pipeline = c.pipeline ∧ c'.set_layout = c.set_layout ∧
      c'.shader = c.shader ∧ c'.samplers = c.samplers ∧
      c'.max_desc_sets = c.max_desc_sets ∧
      c'.desc_pool.driver = c.desc_pool.driver ∧
      c'.desc_pool.max_sets = c.desc_pool.max_sets ∧
      c'.desc_pool.decl_ranges = c.desc_pool.decl_ranges ∧
      c'.desc_sets.length = c.desc_sets.length := by
  unfold Compute.reset at h
  cases ha : resetAlloc c.desc_pool.reset c.set_layout c.desc_sets with
  | none => rw [ha] at h; simp at h
  | some pr =>
    rw [ha] at h
    simp only [Option.map_some'] at h
    injection h with h2
    subst h2
    obtain ⟨hlen, _, hdrv, hmax, hdecl⟩ :=
      resetAlloc_spec c.desc_sets c.desc_pool.reset pr.1 c.set_layout pr.2 ha
    exact ⟨rfl, rfl, rfl, rfl, rfl, hdrv, hmax, hdecl, hlen⟩

/-- Whether the reallocation loop succeeds depends only on the pool's
remaining capacity, its set-count state and the number of slots to
refill — not on the pool's handle counter or the old handle values. -/
theorem resetAlloc_isSome_congr (layout : DescriptorSetLayout) :
    ∀ (l₁ l₂ : List Nat) (p q : DescriptorPool),
      p.remaining = q.remaining → p.max_sets = q.max_sets →
      p.sets_allocated = q.sets_allocated → l₁.length = l₂.length →
      (resetAlloc p layout l₁).isSome → (resetAlloc q layout l₂).isSome := by
  intro l₁
  induction l₁ with
  | nil =>
    intro l₂ p q hr hm hs hl h
    cases l₂ with
    | nil => simp [resetAlloc]
    | cons b t' => simp at hl
  | cons a t ih =>
    intro l₂ p q hr hm hs hl h
    cases l₂ with
    | nil => simp at hl
    | cons b t' =>
      cases hp : p.allocate_set layout with
      | none => rw [resetAlloc, hp] at h; simp at h
      | some pr =>
        obtain ⟨hid, hnext, hdrv, hmax, hdecl, hsa, hcb, hlt⟩ :=
          DescriptorPool.allocate_set_spec hp
        have hq : q.allocate_set layout =
            some ({ q with
                remaining := pr.1.remaining
                sets_allocated := q.sets_allocated + 1
                next_id := q.next_id + 1 }, q.next_id) := by
          unfold DescriptorPool.allocate_set
          rw [if_pos (by omega : q.sets_allocated < q.max_sets), ← hr, hcb]
          rfl
        rw [resetAlloc, hp] at h
        simp only [Option.some_bind] at h
        have ht : (resetAlloc pr.1 layout t).isSome := by
          cases hres : resetAlloc pr.1 layout t with
          | none => rw [hres] at h; simp at h
          | some _ => simp
        have ht' := ih t' pr.1
          ({ q with
              remaining := pr.1.remaining
              sets_allocated := q.sets_allocated + 1
              next_id := q.next_id + 1 })
          rfl (by rw [hmax, hm]) (by rw [hsa, hs]) (by simpa using hl) ht
        rw [resetAlloc, hq]
        simp only [Option.some_bind]
        obtain ⟨x, hx⟩ := Option.isSome_iff_exists.mp ht'
        rw [hx]
        simp

/-! ## Descriptor-range coverage (claim C1) -/

/-- Per-set demand a binding list places on descriptors of type `ty`:
the sum of the descriptor counts of the bindings of that type. -/
def bindingDemand : List DescriptorSetLayoutBinding → DescriptorType → Nat
  | [], _ => 0
  | b :: bs, ty => (if b.ty = ty then b.count else 0) + bindingDemand bs ty

/-- Total declared capacity a range list offers for descriptors of type
`ty`. -/
def rangeCapacity : List DescriptorRangeDesc → DescriptorType → Nat
  | [], _ => 0
  | r :: rs, ty => (if r.ty = ty then r.count else 0) + rangeCapacity rs ty

/-- The declared ranges cover `m` full sets of the layout's binding
requirements: for the type of every binding, capacity is at least `m`
times the per-set demand. -/
def coversSets (m : Nat) (ranges : List DescriptorRangeDesc)
    (bindings : List DescriptorSetLayoutBinding) : Prop :=
  ∀ b ∈ bindings, m * bindingDemand bindings b.ty ≤ rangeCapacity ranges b.ty

instance coversSets.instDecidable (m : Nat) (ranges : List DescriptorRangeDesc)
    (bindings : List DescriptorSetLayoutBinding) : Decidable (coversSets m ranges bindings) := by
  unfold coversSets
  infer_instance

/-- `(desc_set i).isSome` exactly on the stored index domain. -/
theorem Compute.desc_set_isSome_iff (c : Compute) (i : Nat) :
    (c.desc_set i).isSome ↔ i < c.desc_sets.length := by
  rw [Compute.desc_set, Option.isSome_iff_ne_none, ne_eq, List.get?_eq_none]
  omega

/-! ## The claims -/

/-- C1, counterexample: the claim fails at `decode_rgb_rgba` with
`max_desc_sets = 2` — the factory requests capacities of one read-only
buffer and one read-write image (the literal `1`s in the source), which
do not cover two sets of its layout's requirements. -/
theorem claim_C1_counterexample : ¬ coversSets 2 decodeRanges decodeBindings := by
  decide

/-- C1 (amended): the vertex-attribute factories request
`3 × max_desc_sets` read-only and `1 × max_desc_sets` read-write buffer
slots, covering `max_desc_sets` sets of their layout's per-set binding
requirements; `decode_rgb_rgba` requests fixed capacities of one
read-only buffer and one read-write image regardless of `max_desc_sets`,
which cover `max_desc_sets` sets exactly when `max_desc_sets ≤ 1`. -/
theorem claim_C1 (m : Nat) :
    coversSets m (calcVertexAttrsRanges m) calcVertexAttrsBindings ∧
      rangeCapacity (calcVertexAttrsRanges m) (.Buffer READ_ONLY STRUCTURED) = 3 * m ∧
      rangeCapacity (calcVertexAttrsRanges m) (.Buffer READ_WRITE STRUCTURED) = m ∧
      (coversSets m decodeRanges decodeBindings ↔ m ≤ 1) := by
  refine ⟨?_, ?_, ?_, ?_⟩
  · intro b hb
    simp only [calcVertexAttrsBindings, descriptor_set_layout_binding, List.mem_cons,
      List.not_mem_nil, or_false] at hb
    rcases hb with rfl | rfl | rfl | rfl <;>
      simp [bindingDemand, rangeCapacity, calcVertexAttrsRanges, calcVertexAttrsBindings,
        descriptor_range_desc, descriptor_set_layout_binding,
        READ_ONLY, READ_WRITE, STRUCTURED] <;> omega
  · simp [rangeCapacity, calcVertexAttrsRanges, descriptor_range_desc,
      READ_ONLY, READ_WRITE, STRUCTURED]
  · simp [rangeCapacity, calcVertexAttrsRanges, descriptor_range_desc,
      READ_ONLY, READ_WRITE, STRUCTURED]
  · constructor
    · intro h
      have := h (descriptor_set_layout_binding 0 ShaderStageFlags.COMPUTE
        (.Buffer (.Storage true) (.Structured false))) (by simp [decodeBindings])
      simpa [bindingDemand, rangeCapacity, decodeRanges, decodeBindings,
        descriptor_range_desc, descriptor_set_layout_binding] using this
    · intro hm b hb
      simp only [decodeBindings, descriptor_set_layout_binding, List.mem_cons,
        List.not_mem_nil, or_false] at hb
      rcases hb with rfl | rfl <;>
        simp [bindingDemand, rangeCapacity, decodeRanges, decodeBindings,
          descriptor_range_desc, descriptor_set_layout_binding] <;> omega

/-- C7: `desc_set(idx)` fails (the `Vec` index panic, modelled as
`none`) exactly when `idx` is at or beyond the number of stored
descriptor sets, and an in-range index always returns a handle. -/
theorem claim_C7 (c : Compute) (idx : Nat) :
    (c.desc_set idx = none ↔ c.desc_sets.length ≤ idx) ∧
      (idx < c.desc_sets.length → (c.desc_set idx).isSome) := by
  constructor
  · rw [Compute.desc_set, List.get?_eq_none]
  · intro h
    rw [Compute.desc_set_isSome_iff]
    exact h

/-- C10: the shared constructor does not enforce `max_desc_sets ≥ 1`:
with `max_desc_sets = 0` every factory still returns a fully constructed
kernel whose descriptor-set sequence is empty, whose `max_desc_sets()`
is `0`, and whose `desc_set(i)` fails for every `i`. -/
theorem claim_C10 (driver : Driver) :
    (∃ c, Compute.calc_vertex_attrs_u16 driver 0 = some c ∧ c.desc_sets = [] ∧
      c.max_desc_sets = 0 ∧ ∀ i, c.desc_set i = none) ∧
    (∃ c, Compute.calc_vertex_attrs_u16_skin driver 0 = some c ∧ c.desc_sets = [] ∧
      c.max_desc_sets = 0 ∧ ∀ i, c.desc_set i = none) ∧
    (∃ c, Compute.calc_vertex_attrs_u32 driver 0 = some c ∧ c.desc_sets = [] ∧
      c.max_desc_sets = 0 ∧ ∀ i, c.desc_set i = none) ∧
    (∃ c, Compute.calc_vertex_attrs_u32_skin driver 0 = some c ∧ c.desc_sets = [] ∧
      c.max_desc_sets = 0 ∧ ∀ i, c.desc_set i = none) ∧
    (∃ c, Compute.decode_rgb_rgba driver 0 = some c ∧ c.desc_sets = [] ∧
      c.max_desc_sets = 0 ∧ ∀ i, c.desc_set i = none) := by
  refine ⟨⟨_, rfl, rfl, rfl, ?_⟩, ⟨_, rfl, rfl, rfl, ?_⟩, ⟨_, rfl, rfl, rfl, ?_⟩,
    ⟨_, rfl, rfl, rfl, ?_⟩, ⟨_, rfl, rfl, rfl, ?_⟩⟩ <;>
  · intro i
    cases i <;> rfl

/-- C2: for every `max_desc_sets ≥ 1`, after construction via any of the
five factory functions, `desc_set(i)` returns a handle for every
`i < max_desc_sets`, and the handles at distinct indices are distinct. -/
theorem claim_C2 (driver : Driver) (m : Nat) (_hm : 1 ≤ m) (c : Compute)
    (h : Compute.calc_vertex_attrs_u16 driver m = some c ∨
      Compute.calc_vertex_attrs_u16_skin driver m = some c ∨
      Compute.calc_vertex_attrs_u32 driver m = some c ∨
      Compute.calc_vertex_attrs_u32_skin driver m = some c ∨
      Compute.decode_rgb_rgba driver m = some c) :
    (∀ i, i < m → (c.desc_set i).isSome) ∧
      ∀ i j, i < m → j < m → i ≠ j → c.desc_set i ≠ c.desc_set j := by
  have hget : ∀ i, i < m → c.desc_set i = some i := by
    rcases h with h | h | h | h | h <;>
      exact fun i hi => (Compute.new_spec h).2.2.1 i hi
  refine ⟨fun i hi => by rw [hget i hi]; rfl, fun i j hi hj hne => ?_⟩
  rw [hget i hi, hget j hj]
  exact fun hc => hne (Option.some.inj hc)

/-- C2, witness: `calc_vertex_attrs_u16` at `max_desc_sets = 2`. -/
theorem claim_C2_witness :
    ∃ c, Compute.calc_vertex_attrs_u16 ⟨0⟩ 2 = some c ∧
      (∀ i, i < 2 → (c.desc_set i).isSome) ∧
      ∀ i j, i < 2 → j < 2 → i ≠ j → c.desc_set i ≠ c.desc_set j := by
  cases hc : Compute.calc_vertex_attrs_u16 ⟨0⟩ 2 with
  | none => exact absurd hc (by decide)
  | some c => exact ⟨c, rfl, claim_C2 ⟨0⟩ 2 (by decide) c (Or.inl hc)⟩

/-- C3: immediately after construction the stored descriptor-set
sequence has length `max_desc_sets`, and any successful reset preserves
`max_desc_sets()`, the length, and the index domain of `desc_set`. -/
theorem claim_C3 {driver : Driver} {spirv : List Nat}
    {push_consts : List (ShaderStageFlags × RangeU32)} {m : Nat}
    {desc_ranges : List DescriptorRangeDesc} {bindings : List DescriptorSetLayoutBinding}
    {samplers : List Sampler} {c : Compute}
    (h : Compute.new driver spirv push_consts m desc_ranges bindings samplers = some c) :
    c.desc_sets.length = m ∧
      ∀ c', c.reset = some c' →
        c'.max_desc_sets = c.max_desc_sets ∧ c'.desc_sets.length = m ∧
          (∀ i, i < m → (c'.desc_set i).isSome) ∧
          ∀ i, (c'.desc_set i).isSome ↔ (c.desc_set i).isSome := by
  obtain ⟨hmax, hlen, -, -, -, -, -, -, -, -⟩ := Compute.new_spec h
  refine ⟨hlen, fun c' hr => ?_⟩
  obtain ⟨-, -, -, -, hmax', -, -, -, hlen'⟩ := Compute.reset_spec hr
  refine ⟨hmax', by rw [hlen', hlen], fun i hi => ?_, fun i => ?_⟩
  · rw [Compute.desc_set_isSome_iff, hlen', hlen]
    exact hi
  · rw [Compute.desc_set_isSome_iff, Compute.desc_set_isSome_iff, hlen']

/-- C3, witness: the shared constructor with the `calc_vertex_attrs`
configuration at `max_desc_sets = 1`, reset once. -/
theorem claim_C3_witness :
    ∃ c c', Compute.new ⟨0⟩ spirv.compute.CALC_VERTEX_ATTRS_U16_COMP calcVertexAttrsPushConsts 1
        (calcVertexAttrsRanges 1) calcVertexAttrsBindings [] = some c ∧
      c.reset = some c' ∧ c.desc_sets.length = 1 ∧ c'.max_desc_sets = c.max_desc_sets ∧
      c'.desc_sets.length = 1 ∧ ∀ i, i < 1 → (c'.desc_set i).isSome := by
  have h1 : (Compute.new ⟨0⟩ spirv.compute.CALC_VERTEX_ATTRS_U16_COMP calcVertexAttrsPushConsts 1
      (calcVertexAttrsRanges 1) calcVertexAttrsBindings []).isSome := by decide
  obtain ⟨c, hc⟩ := Option.isSome_iff_exists.mp h1
  have h2 : ((Compute.new ⟨0⟩ spirv.compute.CALC_VERTEX_ATTRS_U16_COMP calcVertexAttrsPushConsts 1
      (calcVertexAttrsRanges 1) calcVertexAttrsBindings []).bind Compute.reset).isSome := by
    decide
  rw [hc] at h2
  simp only [Option.some_bind] at h2
  obtain ⟨c', hr⟩ := Option.isSome_iff_exists.mp h2
  obtain ⟨hlen, hrest⟩ := claim_C3 hc
  obtain ⟨hmax, hlen', hsome, -⟩ := hrest c' hr
  exact ⟨c, c', hc, hr, hlen, hmax, hlen', hsome⟩

/-- C4: a successful reset leaves the pipeline, set layout, shader
module, samplers, `max_desc_sets` and the pool object's configuration
(device handle, set capacity, declared ranges) unchanged. -/
theorem claim_C4 {c c' : Compute} (h : c.reset = some c') :
    c'.pipeline = c.pipeline ∧ c'.set_layout = c.set_layout ∧ c'.shader = c.shader ∧
      c'.samplers = c.samplers ∧ c'.max_desc_sets = c.max_desc_sets ∧
      c'.desc_pool.driver = c.desc_pool.driver ∧
      c'.desc_pool.max_sets = c.desc_pool.max_sets ∧
      c'.desc_pool.decl_ranges = c.desc_pool.decl_ranges := by
  obtain ⟨h1, h2, h3, h4, h5, h6, h7, h8, -⟩ := Compute.reset_spec h
  exact ⟨h1, h2, h3, h4, h5, h6, h7, h8⟩

/-- C4, witness: `calc_vertex_attrs_u16` at `max_desc_sets = 1`, reset
once. -/
theorem claim_C4_witness :
    ∃ c c', Compute.calc_vertex_attrs_u16 ⟨0⟩ 1 = some c ∧ c.reset = some c' ∧
      c'.pipeline = c.pipeline ∧ c'.set_layout = c.set_layout ∧ c'.shader = c.shader ∧
      c'.samplers = c.samplers ∧ c'.max_desc_sets = c.max_desc_sets := by
  have h1 : (Compute.calc_vertex_attrs_u16 ⟨0⟩ 1).isSome := by decide
  obtain ⟨c, hc⟩ := Option.isSome_iff_exists.mp h1
  have h2 : ((Compute.calc_vertex_attrs_u16 ⟨0⟩ 1).bind Compute.reset).isSome := by decide
  rw [hc] at h2
  simp only [Option.some_bind] at h2
  obtain ⟨c', hr⟩ := Option.isSome_iff_exists.mp h2
  obtain ⟨h3, h4, h5, h6, h7, -, -, -⟩ := claim_C4 hr
  exact ⟨c, c', hc, hr, h3, h4, h5, h6, h7⟩

/-- C5: every vertex-attribute factory builds a pipeline with an 8-byte
compute-stage push-constant range and a layout of exactly 4 bindings at
indices 0..3 with access modes RO, RO, RW, RO (structured storage
buffers); `decode_rgb_rgba` builds a 4-byte compute-stage push-constant
range and a layout of exactly 2 bindings: a read-only structured buffer
and a read-write storage image. -/
theorem claim_C5 :
    (∀ (driver : Driver) (m : Nat) (c : Compute),
      (Compute.calc_vertex_attrs_u16 driver m = some c ∨
        Compute.calc_vertex_attrs_u16_skin driver m = some c ∨
        Compute.calc_vertex_attrs_u32 driver m = some c ∨
        Compute.calc_vertex_attrs_u32_skin driver m = some c) →
      c.pipeline.push_consts = [(ShaderStageFlags.COMPUTE, ⟨0, 8⟩)] ∧
      c.set_layout.bindings =
        [⟨0, .Buffer (.Storage true) (.Structured false), 1, ShaderStageFlags.COMPUTE, false⟩,
          ⟨1, .Buffer (.Storage true) (.Structured false), 1, ShaderStageFlags.COMPUTE, false⟩,
          ⟨2, .Buffer (.Storage false) (.Structured false), 1, ShaderStageFlags.COMPUTE, false⟩,
          ⟨3, .Buffer (.Storage true) (.Structured false), 1, ShaderStageFlags.COMPUTE, false⟩]) ∧
    ∀ (driver : Driver) (m : Nat) (c : Compute),
      Compute.decode_rgb_rgba driver m = some c →
      c.pipeline.push_consts = [(ShaderStageFlags.COMPUTE, ⟨0, 4⟩)] ∧
      c.set_layout.bindings =
        [⟨0, .Buffer (.Storage true) (.Structured false), 1, ShaderStageFlags.COMPUTE, false⟩,
          ⟨1, .Image (.Storage false), 1, ShaderStageFlags.COMPUTE, false⟩] := by
  constructor
  · intro driver m c h
    rcases h with h | h | h | h <;>
    · obtain ⟨-, -, -, hsl, hpl, -, -, -, -, -⟩ := Compute.new_spec h
      rw [hsl, hpl]
      exact ⟨rfl, rfl⟩
  · intro driver m c h
    obtain ⟨-, -, -, hsl, hpl, -, -, -, -, -⟩ := Compute.new_spec h
    rw [hsl, hpl]
    exact ⟨rfl, rfl⟩

/-- C5, witness: `calc_vertex_attrs_u16` and `decode_rgb_rgba` at
`max_desc_sets = 1`. -/
theorem claim_C5_witness :
    ∃ c d, Compute.calc_vertex_attrs_u16 ⟨0⟩ 1 = some c ∧
      Compute.decode_rgb_rgba ⟨0⟩ 1 = some d ∧
      c.pipeline.push_consts = [(ShaderStageFlags.COMPUTE, ⟨0, 8⟩)] ∧
      d.pipeline.push_consts = [(ShaderStageFlags.COMPUTE, ⟨0, 4⟩)] ∧
      c.set_layout.bindings.length = 4 ∧ d.set_layout.bindings.length = 2 := by
  have h1 : (Compute.calc_vertex_attrs_u16 ⟨0⟩ 1).isSome := by decide
  have h2 : (Compute.decode_rgb_rgba ⟨0⟩ 1).isSome := by decide
  obtain ⟨c, hc⟩ := Option.isSome_iff_exists.mp h1
  obtain ⟨d, hd⟩ := Option.isSome_iff_exists.mp h2
  obtain ⟨hcp, hcb⟩ := claim_C5.1 ⟨0⟩ 1 c (Or.inl hc)
  obtain ⟨hdp, hdb⟩ := claim_C5.2 ⟨0⟩ 1 d hd
  exact ⟨c, d, hc, hd, hcp, hdp, by rw [hcb]; rfl, by rw [hdb]; rfl⟩

/-- C6: each of the four vertex-attribute factories delegates to the
shared `calc_vertex_attrs` helper with its own shader binary, and any
four kernels they construct for the same device and `max_desc_sets`
agree on the set layout, the push-constant range and the declared pool
capacities, differing only in the stored shader binary. -/
theorem claim_C6 :
    (∀ (driver : Driver) (m : Nat),
      Compute.calc_vertex_attrs_u16 driver m =
        Compute.calc_vertex_attrs driver spirv.compute.CALC_VERTEX_ATTRS_U16_COMP m ∧
      Compute.calc_vertex_attrs_u16_skin driver m =
        Compute.calc_vertex_attrs driver spirv.compute.CALC_VERTEX_ATTRS_U16_SKIN_COMP m ∧
      Compute.calc_vertex_attrs_u32 driver m =
        Compute.calc_vertex_attrs driver spirv.compute.CALC_VERTEX_ATTRS_U32_COMP m ∧
      Compute.calc_vertex_attrs_u32_skin driver m =
        Compute.calc_vertex_attrs driver spirv.compute.CALC_VERTEX_ATTRS_U32_SKIN_COMP m) ∧
    ∀ (driver : Driver) (m : Nat) (c₁ c₂ c₃ c₄ : Compute),
      Compute.calc_vertex_attrs_u16 driver m = some c₁ →
      Compute.calc_vertex_attrs_u16_skin driver m = some c₂ →
      Compute.calc_vertex_attrs_u32 driver m = some c₃ →
      Compute.calc_vertex_attrs_u32_skin driver m = some c₄ →
      (c₁.set_layout = c₂.set_layout ∧ c₂.set_layout = c₃.set_layout ∧
        c₃.set_layout = c₄.set_layout) ∧
      (c₁.pipeline.push_consts = c₂.pipeline.push_consts ∧
        c₂.pipeline.push_consts = c₃.pipeline.push_consts ∧
        c₃.pipeline.push_consts = c₄.pipeline.push_consts) ∧
      (c₁.desc_pool.decl_ranges = c₂.desc_pool.decl_ranges ∧
        c₂.desc_pool.decl_ranges = c₃.desc_pool.decl_ranges ∧
        c₃.desc_pool.decl_ranges = c₄.desc_pool.decl_ranges) ∧
      (c₁.desc_pool.max_sets = c₂.desc_pool.max_sets ∧
        c₂.desc_pool.max_sets = c₃.desc_pool.max_sets ∧
        c₃.desc_pool.max_sets = c₄.desc_pool.max_sets) ∧
      c₁.shader.spirv = spirv.compute.CALC_VERTEX_ATTRS_U16_COMP ∧
      c₂.shader.spirv = spirv.compute.CALC_VERTEX_ATTRS_U16_SKIN_COMP ∧
      c₃.shader.spirv = spirv.compute.CALC_VERTEX_ATTRS_U32_COMP ∧
      c₄.shader.spirv = spirv.compute.CALC_VERTEX_ATTRS_U32_SKIN_COMP := by
  refine ⟨fun driver m => ⟨rfl, rfl, rfl, rfl⟩, ?_⟩
  intro driver m c₁ c₂ c₃ c₄ h₁ h₂ h₃ h₄
  obtain ⟨-, -, -, hs1, hp1, hsh1, -, -, hms1, hd1⟩ := Compute.new_spec h₁
  obtain ⟨-, -, -, hs2, hp2, hsh2, -, -, hms2, hd2⟩ := Compute.new_spec h₂
  obtain ⟨-, -, -, hs3, hp3, hsh3, -, -, hms3, hd3⟩ := Compute.new_spec h₃
  obtain ⟨-, -, -, hs4, hp4, hsh4, -, -, hms4, hd4⟩ := Compute.new_spec h₄
  exact ⟨⟨by rw [hs1, hs2], by rw [hs2, hs3], by rw [hs3, hs4]⟩,
    ⟨by rw [hp1, hp2], by rw [hp2, hp3], by rw [hp3, hp4]⟩,
    ⟨by rw [hd1, hd2], by rw [hd2, hd3], by rw [hd3, hd4]⟩,
    ⟨by rw [hms1, hms2], by rw [hms2, hms3], by rw [hms3, hms4]⟩,
    by rw [hsh1], by rw [hsh2], by rw [hsh3], by rw [hsh4]⟩

/-- C6, witness: the four factories at `max_desc_sets = 1`. -/
theorem claim_C6_witness :
    ∃ c₁ c₂ c₃ c₄, Compute.calc_vertex_attrs_u16 ⟨0⟩ 1 = some c₁ ∧
      Compute.calc_vertex_attrs_u16_skin ⟨0⟩ 1 = some c₂ ∧
      Compute.calc_vertex_attrs_u32 ⟨0⟩ 1 = some c₃ ∧
      Compute.calc_vertex_attrs_u32_skin ⟨0⟩ 1 = some c₄ ∧
      c₁.set_layout = c₂.set_layout ∧ c₂.set_layout = c₃.set_layout ∧
      c₃.set_layout = c₄.set_layout := by
  have h1 : (Compute.calc_vertex_attrs_u16 ⟨0⟩ 1).isSome := by decide
  have h2 : (Compute.calc_vertex_attrs_u16_skin ⟨0⟩ 1).isSome := by decide
  have h3 : (Compute.calc_vertex_attrs_u32 ⟨0⟩ 1).isSome := by decide
  have h4 : (Compute.calc_vertex_attrs_u32_skin ⟨0⟩ 1).isSome := by decide
  obtain ⟨c₁, hc1⟩ := Option.isSome_iff_exists.mp h1
  obtain ⟨c₂, hc2⟩ := Option.isSome_iff_exists.mp h2
  obtain ⟨c₃, hc3⟩ := Option.isSome_iff_exists.mp h3
  obtain ⟨c₄, hc4⟩ := Option.isSome_iff_exists.mp h4
  obtain ⟨⟨e1, e2, e3⟩, -, -, -, -, -, -, -⟩ := claim_C6.2 ⟨0⟩ 1 c₁ c₂ c₃ c₄ hc1 hc2 hc3 hc4
  exact ⟨c₁, c₂, c₃, c₄, hc1, hc2, hc3, hc4, e1, e2, e3⟩

/-- C8: descriptor-set allocation failure is fatal.  A failed bulk
allocation makes the shared constructor abort (`none`, the modelled
panic) rather than return an error value, and a successful construction
is always fully constructed; likewise a failed post-reset reallocation
makes `reset` abort, and a successful reset always refills every slot. -/
theorem claim_C8 :
    (∀ (driver : Driver) (spirv : List Nat)
      (push_consts : List (ShaderStageFlags × RangeU32)) (m : Nat)
      (desc_ranges : List DescriptorRangeDesc) (bindings : List DescriptorSetLayoutBinding)
      (samplers : List Sampler),
      ((DescriptorPool.new driver m desc_ranges).allocate
          (DescriptorSetLayout.new driver bindings) m = none →
        Compute.new driver spirv push_consts m desc_ranges bindings samplers = none) ∧
      ∀ c, Compute.new driver spirv push_consts m desc_ranges bindings samplers = some c →
        c.desc_sets.length = m ∧ c.max_desc_sets = m) ∧
    ∀ c : Compute,
      (resetAlloc c.desc_pool.reset c.set_layout c.desc_sets = none → c.reset = none) ∧
      ∀ c', c.reset = some c' → c'.desc_sets.length = c.desc_sets.length := by
  constructor
  · intro driver spirv push_consts m desc_ranges bindings samplers
    constructor
    · intro hfail
      unfold Compute.new
      dsimp only
      rw [hfail]
      rfl
    · intro c h
      exact ⟨(Compute.new_spec h).2.1, (Compute.new_spec h).1⟩
  · intro c
    constructor
    · intro hfail
      unfold Compute.reset
      rw [hfail]
      rfl
    · intro c' h
      exact (Compute.reset_spec h).2.2.2.2.2.2.2.2

/-- C8, witness: with the `decode_rgb_rgba` configuration at
`max_desc_sets = 2` the bulk allocation fails, so the shared constructor
aborts. -/
theorem claim_C8_witness :
    Compute.new ⟨0⟩ spirv.compute.DECODE_RGB_RGBA_COMP decodePushConsts 2 decodeRanges
      decodeBindings [] = none :=
  (claim_C8.1 ⟨0⟩ spirv.compute.DECODE_RGB_RGBA_COMP decodePushConsts 2 decodeRanges
    decodeBindings []).1 (by decide)

/-- C9: after one successful reset, a second reset (with no intervening
operation) again yields a kernel, and its observable shape —
`max_desc_sets()` and the stored set count — is identical to the shape
after the single reset. -/
theorem claim_C9 {c c₁ : Compute} (h : c.reset = some c₁) :
    ∃ c₂, c₁.reset = some c₂ ∧ c₂.max_desc_sets = c₁.max_desc_sets ∧
      c₂.desc_sets.length = c₁.desc_sets.length := by
  obtain ⟨-, hsl, -, -, -, -, hms, hdecl, hlen⟩ := Compute.reset_spec h
  have h1 : (resetAlloc c.desc_pool.reset c.set_layout c.desc_sets).isSome := by
    unfold Compute.reset at h
    cases ha : resetAlloc c.desc_pool.reset c.set_layout c.desc_sets with
    | none => rw [ha] at h; simp at h
    | some _ => simp
  have h2 : (resetAlloc c₁.desc_pool.reset c₁.set_layout c₁.desc_sets).isSome := by
    rw [hsl]
    exact resetAlloc_isSome_congr c.set_layout c.desc_sets c₁.desc_sets
      c.desc_pool.reset c₁.desc_pool.reset
      (by simp [DescriptorPool.reset, hdecl]) (by simp [DescriptorPool.reset, hms])
      (by simp [DescriptorPool.reset]) hlen.symm h1
  obtain ⟨r, hrr⟩ := Option.isSome_iff_exists.mp h2
  have hc2 : c₁.reset = some { c₁ with desc_pool := r.1, desc_sets := r.2 } := by
    unfold Compute.reset
    rw [hrr]
    rfl
  obtain ⟨-, -, -, -, hms2, -, -, -, hlen2⟩ := Compute.reset_spec hc2
  exact ⟨_, hc2, hms2, hlen2⟩

/-- C9, witness: `calc_vertex_attrs_u16` at `max_desc_sets = 1`, reset
twice. -/
theorem claim_C9_witness :
    ∃ c c₁ c₂, Compute.calc_vertex_attrs_u16 ⟨0⟩ 1 = some c ∧ c.reset = some c₁ ∧
      c₁.reset = some c₂ ∧ c₂.max_desc_sets = c₁.max_desc_sets ∧
      c₂.desc_sets.length = c₁.desc_sets.length := by
  have h1 : (Compute.calc_vertex_attrs_u16 ⟨0⟩ 1).isSome := by decide
  obtain ⟨c, hc⟩ := Option.isSome_iff_exists.mp h1
  have h2 : ((Compute.calc_vertex_attrs_u16 ⟨0⟩ 1).bind Compute.reset).isSome := by decide
  rw [hc] at h2
  simp only [Option.some_bind] at h2
  obtain ⟨c₁, hr⟩ := Option.isSome_iff_exists.mp h2
  obtain ⟨c₂, hr2, hm2, hl2⟩ := claim_C9 hr
  exact ⟨c, c₁, c₂, hc, hr, hr2, hm2, hl2⟩

end Screen13
